import Mathlib

/-!
Verification of the Drag and Drop v2 XBlock utility layer
(`drag_and_drop_v2/utils.py`) and of the placement engine / event
emitter contracts described in the design document.

The Python data handled by the migration helpers is JSON-shaped: we
embed it as the inductive type `PyVal`, with dictionaries as ordered
association lists (Python 3.7+ dicts preserve insertion order; key
update keeps the position of the existing binding, a fresh key is
appended at the end, exactly as modelled by `dset`).

The placement engine, interaction controller and event emitter live in
the JavaScript side of the repository, which is not part of the
source slice (only its integration tests are); those parts are
modelled from the design document and are marked as such.
-/

namespace DragAndDropV2

/-- JSON-shaped Python values, as stored in XBlock fields. -/
inductive PyVal : Type where
  | vStr (s : String)
  | vInt (n : Int)
  | vBool (b : Bool)
  | vNone
  | vList (elems : List PyVal)
  | vDict (entries : List (String × PyVal))

/-- Association-list model of a Python dict (insertion-ordered). -/
abbrev Dict := List (String × PyVal)

/-- Lookup of the first binding of a key, Python `d[k]` / `d.get(k)`. -/
def dget? : Dict → String → Option PyVal
  | [], _ => none
  | (k, v) :: rest, key => if k = key then some v else dget? rest key

/-- Lookup with a default value, Python `d.get(k, default)`. -/
def dgetD (d : Dict) (key : String) (default : PyVal) : PyVal :=
  (dget? d key).getD default

/-- Python `k in d`. -/
def dcontains (d : Dict) (key : String) : Bool :=
  (dget? d key).isSome

/-- Python `d[k] = v`: update the existing binding in place (keeping
its position) or append a fresh binding at the end. -/
def dset : Dict → String → PyVal → Dict
  | [], key, val => [(key, val)]
  | (k, v) :: rest, key, val =>
      if k = key then (key, val) :: rest else (k, v) :: dset rest key val

/-- Python `d.pop(k, None)`: drop the binding of `k` (dicts bind each
key at most once, so dropping every occurrence agrees with Python on
well-formed dicts and keeps the operation total on raw lists). -/
def dpop : Dict → String → Dict
  | [], _ => []
  | (k, v) :: rest, key =>
      if k = key then dpop rest key else (k, v) :: dpop rest key

/-- Python `v == s` for a string literal `s`: only equal strings
compare equal, every other value compares unequal. -/
def pyEqStr (v : PyVal) (s : String) : Bool :=
  match v with
  | .vStr t => t = s
  | _ => false

namespace Constants

/-- Source: `Constants.ALLOWED_ZONE_ALIGNMENTS` in utils.py. -/
def ALLOWED_ZONE_ALIGNMENTS : List String := ["left", "right", "center"]

/-- Source: `Constants.DEFAULT_ZONE_ALIGNMENT` in utils.py. -/
def DEFAULT_ZONE_ALIGNMENT : String := "center"

end Constants

/-- Python `v in Constants.ALLOWED_ZONE_ALIGNMENTS` for a `PyVal` v. -/
def alignAllowed (v : PyVal) : Bool :=
  Constants.ALLOWED_ZONE_ALIGNMENTS.any (fun s => pyEqStr v s)

namespace StateMigration

/-- Source: `StateMigration._apply_migration` on zone dicts.  The
Python code first takes `obj.copy()`; a shallow dict copy is
value-equal to the original, so the copy is the identity at the level
of values (the aliasing discipline it establishes is modelled
separately by the heap semantics below). -/
def apply_migration (obj : Dict) (migrations : List (Dict → Dict)) : Dict :=
  migrations.foldl (fun tmp method => method tmp) obj

/-- Source: `StateMigration._zone_v1_to_v2`. -/
def zone_v1_to_v2 (zone : Dict) : Dict :=
  let zone := if dcontains zone "uid" = false
    then dset zone "uid" (dgetD zone "title" .vNone)
    else zone
  dpop (dpop zone "id") "index"

/-- Source: `StateMigration._zone_v2_to_v2p1`. -/
def zone_v2_to_v2p1 (zone : Dict) : Dict :=
  if alignAllowed (dgetD zone "align" .vNone) = false
    then dset zone "align" (.vStr Constants.DEFAULT_ZONE_ALIGNMENT)
    else zone

/-- Source: `StateMigration.apply_zone_migrations`. -/
def apply_zone_migrations (zone : Dict) : Dict :=
  apply_migration zone [zone_v1_to_v2, zone_v2_to_v2p1]

/-- Python `obj.copy()` for the item-state pipeline: dicts and lists
have a `copy` method returning a value-equal shallow copy; other
shapes raise `AttributeError`. -/
def pyCopy (obj : PyVal) : Except String PyVal :=
  match obj with
  | .vDict d => .ok (.vDict d)
  | .vList l => .ok (.vList l)
  | _ => .error "AttributeError: object has no attribute copy"

/-- Source: `StateMigration._item_state_v1_to_v1p5`.  A dict passes
through; otherwise Python builds `{'top': item[0], 'left': item[1]}`,
which succeeds on any sequence with at least two elements (indexing a
shorter sequence raises `IndexError`, a non-sequence `TypeError`). -/
def item_state_v1_to_v1p5 (item : PyVal) : Except String PyVal :=
  match item with
  | .vDict d => .ok (.vDict d)
  | .vList (a :: b :: _) => .ok (.vDict [("top", a), ("left", b)])
  | .vList _ => .error "IndexError"
  | .vStr s =>
      match s.data with
      | a :: b :: _ =>
          .ok (.vDict [("top", .vStr (String.mk [a])), ("left", .vStr (String.mk [b]))])
      | _ => .error "IndexError"
  | _ => .error "TypeError"

/-- Source: `StateMigration._item_state_v1p5_to_v2`: the absolute to
relative conversion is documented as happening in JS, so the Python
function returns its argument unchanged. -/
def item_state_v1p5_to_v2 (item : PyVal) : Except String PyVal :=
  .ok item

/-- Source: the `attributes_to_remove` list in
`StateMigration._item_state_v2_to_v2p1`. -/
def attributes_to_remove : List String :=
  ["x_percent", "y_percent", "left", "top", "absolute"]

/-- Source: `StateMigration._item_state_v2_to_v2p1`.  The loop body is
`del [attribute]`, which is a `del` of a target list holding the bare
name `attribute`: it unbinds the loop variable and never touches
`item`.  The function therefore returns its argument unchanged, even
though its own docstring shows the listed keys being removed.  The
fold below mirrors the loop whose body leaves the dict alone. -/
def item_state_v2_to_v2p1 (item : PyVal) : Except String PyVal :=
  .ok (attributes_to_remove.foldl (fun item _attribute => item) item)

/-- Source: `StateMigration._apply_migration` for the fallible
item-state pipeline: copy, then fold the migrations left to right. -/
def apply_migration_exc (obj : PyVal)
    (migrations : List (PyVal → Except String PyVal)) : Except String PyVal := do
  let tmp ← pyCopy obj
  migrations.foldlM (fun tmp method => method tmp) tmp

/-- Source: `StateMigration.apply_item_state_migrations`. -/
def apply_item_state_migrations (item_state : PyVal) : Except String PyVal :=
  apply_migration_exc item_state
    [item_state_v1_to_v1p5, item_state_v1p5_to_v2, item_state_v2_to_v2p1]

end StateMigration

/-!
Heap semantics of `_apply_migration`.  The Python code mutates objects
in place: `tmp = obj.copy()` allocates a fresh object and each
migration step then works on `tmp`, so the caller's object must stay
untouched.  To state that as a frame property we give the pipeline a
small object-heap semantics: a heap is a list of cells addressed by
their index, `copy` allocates a fresh cell at the end of the heap, the
zone steps write the transformed dict back into the cell they were
given, and `_item_state_v1_to_v1p5` allocates a fresh dict when its
input is not already a dict.
-/

abbrev Heap := List PyVal

abbrev Addr := Nat

def heapRead (h : Heap) (a : Addr) : PyVal := h.getD a .vNone

def heapWrite (h : Heap) (a : Addr) (v : PyVal) : Heap := h.set a v

def heapAlloc (h : Heap) (v : PyVal) : Heap × Addr := (h ++ [v], h.length)

/-- Heap semantics of `tmp = obj.copy()`: read the cell, take a
value-equal shallow copy, store it in a freshly allocated cell. -/
def heapCopy (h : Heap) (a : Addr) : Except String (Heap × Addr) :=
  match StateMigration.pyCopy (heapRead h a) with
  | .ok v => .ok (heapAlloc h v)
  | .error e => .error e

/-- Heap semantics of one in-place zone migration step: both zone
steps mutate the dict they are handed (net effect: the pure transform
`f`) and return the same object.  Python raises on a non-dict. -/
def zoneStepH (f : Dict → Dict) (h : Heap) (a : Addr) : Except String (Heap × Addr) :=
  match heapRead h a with
  | .vDict d => .ok (heapWrite h a (.vDict (f d)), a)
  | _ => .error "TypeError"

/-- Heap semantics of `apply_zone_migrations`: copy, then run the two
zone steps in order, aborting on the first exception. -/
def heap_apply_zone_migrations (h : Heap) (a : Addr) : Except String (Heap × Addr) :=
  match heapCopy h a with
  | .error e => .error e
  | .ok (h1, t) =>
    match zoneStepH StateMigration.zone_v1_to_v2 h1 t with
    | .error e => .error e
    | .ok (h2, t2) => zoneStepH StateMigration.zone_v2_to_v2p1 h2 t2

/-- Heap semantics of `_item_state_v1_to_v1p5`: a dict is returned as
the same object; any other accepted shape makes Python build a fresh
`{'top': item[0], 'left': item[1]}` dict, modelled as an allocation. -/
def itemStep1H (h : Heap) (a : Addr) : Except String (Heap × Addr) :=
  match heapRead h a with
  | .vDict _ => .ok (h, a)
  | v =>
    match StateMigration.item_state_v1_to_v1p5 v with
    | .ok w => .ok (heapAlloc h w)
    | .error e => .error e

/-- Heap semantics of `_item_state_v1p5_to_v2`: returns its argument. -/
def itemStep2H (h : Heap) (a : Addr) : Except String (Heap × Addr) := .ok (h, a)

/-- Heap semantics of `_item_state_v2_to_v2p1`: because `del
[attribute]` only unbinds the loop variable, the step performs no
write at all and returns its argument. -/
def itemStep3H (h : Heap) (a : Addr) : Except String (Heap × Addr) := .ok (h, a)

/-- Heap semantics of `apply_item_state_migrations`. -/
def heap_apply_item_state_migrations (h : Heap) (a : Addr) : Except String (Heap × Addr) :=
  match heapCopy h a with
  | .error e => .error e
  | .ok (h1, t) =>
    match itemStep1H h1 t with
    | .error e => .error e
    | .ok (h2, t2) =>
      match itemStep2H h2 t2 with
      | .error e => .error e
      | .ok (h3, t3) => itemStep3H h3 t3

/-!
Feedback message builders.  The source builds each message by picking
a singular or plural format string with `ngettext` and substituting
the count with `str.format`.  A format string with one named
placeholder is embedded as a `Template` split at the placeholder:
`render` recovers the literal source text and `format` is the
substitution.  (`String.replace` does not reduce in the kernel, so
the split representation keeps everything computable by `rfl`.)
-/

/-- A Python format string with a single named placeholder. -/
structure Template where
  before : String
  field : String
  after : String
deriving DecidableEq

/-- The literal text of the format string, placeholder included. -/
def Template.render (t : Template) : String :=
  t.before ++ "\x7b" ++ t.field ++ "\x7d" ++ t.after

/-- Python `tpl.format(field=value)`. -/
def Template.format (t : Template) (value : String) : String :=
  t.before ++ value ++ t.after

/-- Source: `ngettext_fallback` in utils.py (Python is untyped, so the
two texts are embedded generically; the source applies it to the
format strings below). -/
def ngettext_fallback {α : Type} (text_singular text_plural : α) (number : Int) : α :=
  if number = 1 then text_singular else text_plural

namespace FeedbackMessages

/-- Source: the singular format string in `FeedbackMessages.correctly_placed`. -/
def CORRECTLY_PLACED_SINGULAR : Template :=
  { before := "Correctly placed ", field := "correct_count", after := " item." }

/-- Source: the plural format string in `FeedbackMessages.correctly_placed`. -/
def CORRECTLY_PLACED_PLURAL : Template :=
  { before := "Correctly placed ", field := "correct_count", after := " items." }

/-- Source: the singular format string in `FeedbackMessages.misplaced`. -/
def MISPLACED_SINGULAR : Template :=
  { before := "Misplaced ", field := "misplaced_count",
    after := " item. Misplaced item was returned to item bank." }

/-- Source: the plural format string in `FeedbackMessages.misplaced`. -/
def MISPLACED_PLURAL : Template :=
  { before := "Misplaced ", field := "misplaced_count",
    after := " items. Misplaced items were returned to item bank." }

/-- Source: the singular format string in `FeedbackMessages.not_placed`. -/
def NOT_PLACED_SINGULAR : Template :=
  { before := "Did not place ", field := "missing_count", after := " required item." }

/-- Source: the plural format string in `FeedbackMessages.not_placed`. -/
def NOT_PLACED_PLURAL : Template :=
  { before := "Did not place ", field := "missing_count", after := " required items." }

/-- Source: `FeedbackMessages.correctly_placed`. -/
def correctly_placed (number : Int) : String :=
  (ngettext_fallback CORRECTLY_PLACED_SINGULAR CORRECTLY_PLACED_PLURAL number).format
    (toString number)

/-- Source: `FeedbackMessages.misplaced`. -/
def misplaced (number : Int) : String :=
  (ngettext_fallback MISPLACED_SINGULAR MISPLACED_PLURAL number).format (toString number)

/-- Source: `FeedbackMessages.not_placed`. -/
def not_placed (number : Int) : String :=
  (ngettext_fallback NOT_PLACED_SINGULAR NOT_PLACED_PLURAL number).format (toString number)

end FeedbackMessages

/-!
Placement engine, interaction controllers and event emitter.  These
components live in the client-side JavaScript of the repository, which
is not part of the source slice (only their integration tests are);
every definition in this namespace is modelled from the design
document, as its doc comment states.
-/

namespace Engine

/-- Modelled from the spec: a draggable item of the exercise
configuration (`id`, ordered `validZoneIds`, positive and negative
feedback strings); the engine source itself is not in the slice. -/
structure Item where
  id : Nat
  validZoneIds : List String
  feedback_positive : String
  feedback_negative : String
deriving DecidableEq

/-- Modelled from the spec: a drop zone (`uid`, display `title`,
optional `maxItems` capacity; an absent or zero `maxItems` in the raw
configuration means unlimited and is modelled as `none`). -/
structure Zone where
  uid : String
  title : String
  maxItems : Option Nat
deriving DecidableEq

/-- Modelled from the spec: the static exercise configuration. -/
structure Config where
  zones : List Zone
  items : List Item
deriving DecidableEq

/-- Per-item placement state, keyed by item id: `none` is `InBank`,
`some uid` is `Placed(uid)`. -/
abbrev PlacementState := List (Nat × Option String)

def findItem? (cfg : Config) (itemId : Nat) : Option Item :=
  cfg.items.find? (fun it => it.id == itemId)

def findZone? (cfg : Config) (zoneUid : String) : Option Zone :=
  cfg.zones.find? (fun z => z.uid == zoneUid)

def getItemZone : PlacementState → Nat → Option String
  | [], _ => none
  | (j, w) :: rest, i => if j = i then w else getItemZone rest i

def setItemZone : PlacementState → Nat → Option String → PlacementState
  | [], i, z => [(i, z)]
  | (j, w) :: rest, i, z =>
      if j = i then (i, z) :: rest else (j, w) :: setItemZone rest i z

/-- Modelled from the spec: the number of items currently placed in
the zone, the moving item itself excluded. -/
def zoneOccupancy (st : PlacementState) (movingItem : Nat) (zoneUid : String) : Nat :=
  (st.filter (fun p => p.1 != movingItem && p.2 == some zoneUid)).length

/-- Modelled from the spec: rejection reasons of a placement verdict. -/
inductive RejectReason where
  | CapacityExceeded
deriving DecidableEq

/-- Modelled from the spec: the structured result of a placement
attempt: `{accepted, isCorrect, zoneId, reasonIfRejected}`. -/
structure PlacementVerdict where
  accepted : Bool
  isCorrect : Bool
  zoneId : Option String
  reasonIfRejected : Option RejectReason
deriving DecidableEq

/-- Modelled from the spec: the canonical engine command
`placeItem(itemId, targetZoneId | null)`.  Unknown ids fail the
command; a target zone with a finite `maxItems` already holding that
many items (the moving item excluded) rejects the placement with
`CapacityExceeded` and forces the item back to the bank; otherwise the
item's zone is updated and correctness recomputed as membership of the
target zone in the item's `validZoneIds`. -/
def placeItem (cfg : Config) (st : PlacementState) (itemId : Nat)
    (targetZoneId : Option String) : Except String (PlacementState × PlacementVerdict) :=
  match findItem? cfg itemId with
  | none => .error "UnknownEntity"
  | some item =>
    match targetZoneId with
    | none =>
        .ok (setItemZone st itemId none,
          { accepted := true, isCorrect := false, zoneId := none, reasonIfRejected := none })
    | some zoneUid =>
      match findZone? cfg zoneUid with
      | none => .error "UnknownEntity"
      | some zone =>
        let atCapacity : Bool :=
          match zone.maxItems with
          | some m => decide (m ≤ zoneOccupancy st itemId zoneUid)
          | none => false
        if atCapacity then
          .ok (setItemZone st itemId none,
            { accepted := false, isCorrect := false, zoneId := none,
              reasonIfRejected := some .CapacityExceeded })
        else
          .ok (setItemZone st itemId (some zoneUid),
            { accepted := true, isCorrect := decide (zoneUid ∈ item.validZoneIds),
              zoneId := some zoneUid, reasonIfRejected := none })

/-- Modelled from the spec: the pointer-drag controller.  Dropping a
dragged item over a zone (or over the bank / outside every zone,
passed as `none`) ends the `Dragging` phase and issues the canonical
`placeItem` command with the zone under the pointer. -/
def pointerDrop (cfg : Config) (st : PlacementState) (itemId : Nat)
    (zoneUnderPointer : Option String) : Except String (PlacementState × PlacementVerdict) :=
  placeItem cfg st itemId zoneUnderPointer

/-- Modelled from the spec: the keyboard controller.  Pressing an
action key while a zone (or the bank, passed as `none`) has focus and
an item is `Grabbed` issues the same canonical `placeItem` command
with the focused zone. -/
def keyboardActivateDrop (cfg : Config) (st : PlacementState) (itemId : Nat)
    (focusedZone : Option String) : Except String (PlacementState × PlacementVerdict) :=
  placeItem cfg st itemId focusedZone

/-- Modelled from the spec: the fresh engine state after load: every
configured item is in the bank. -/
def initState (cfg : Config) : PlacementState :=
  cfg.items.map (fun it => (it.id, none))

def isCorrectlyPlaced (st : PlacementState) (it : Item) : Bool :=
  match getItemZone st it.id with
  | some z => decide (z ∈ it.validZoneIds)
  | none => false

def requiredCount (cfg : Config) : Nat :=
  (cfg.items.filter (fun it => !it.validZoneIds.isEmpty)).length

def correctlyPlacedCount (cfg : Config) (st : PlacementState) : Nat :=
  (cfg.items.filter (isCorrectlyPlaced st)).length

/-- Modelled from the spec: derived score `correctlyPlaced / required`
(0 when `required = 0`), clamped to `[0,1]` (the lower clamp is
automatic, both counts being nonnegative). -/
def score (cfg : Config) (st : PlacementState) : ℚ :=
  if requiredCount cfg = 0 then 0
  else min 1 ((correctlyPlacedCount cfg st : ℚ) / (requiredCount cfg : ℚ))

/-- Modelled from the spec: the analytics event taxonomy with the
payload fields fixed by the wire contract. -/
inductive Event where
  | loaded
  | item_picked_up (item_id : Nat)
  | grade (value : ℚ) (max_value : ℚ)
  | item_dropped (is_correct : Bool) (item_id : Nat) (location : String) (location_id : String)
  | feedback_opened (content : String) (truncated : Bool)
  | feedback_closed (content : String) (truncated : Bool) (manually : Bool)
deriving DecidableEq

/-- Modelled from the spec: the feedback popup content shown after a
drop, with its truncation flag. -/
structure FeedbackPopup where
  content : String
  truncated : Bool
deriving DecidableEq

/-- Modelled from the spec: the engine transition for one drop
command: run `placeItem`, emit `grade` when the computed score
changed, then `item.dropped` carrying `is_correct`, `item_id`,
`location` (the zone title) and `location_id` (the zone uid), then
`feedback.opened` carrying the message content and its `truncated`
flag (content longer than the display-length threshold). -/
def dropOutcome (cfg : Config) (threshold : Nat) (st : PlacementState)
    (itemId : Nat) (zoneUid : String) :
    Except String (PlacementState × FeedbackPopup × List Event) :=
  match placeItem cfg st itemId (some zoneUid), findItem? cfg itemId, findZone? cfg zoneUid with
  | .ok (st2, verdict), some item, some zone =>
      let gradeEvents : List Event :=
        if score cfg st2 = score cfg st then [] else [.grade (score cfg st2) 1]
      let content := if verdict.isCorrect then item.feedback_positive else item.feedback_negative
      let truncated := decide (threshold < content.length)
      .ok (st2, ⟨content, truncated⟩,
        gradeEvents ++ [.item_dropped verdict.isCorrect itemId zone.title zone.uid,
          .feedback_opened content truncated])
  | .error e, _, _ => .error e
  | _, _, _ => .error "UnknownEntity"

/-- Modelled from the spec: the full published event trace of a single
pick-up-then-drop interaction on a freshly loaded engine: `loaded`
once at engine load, `item.picked_up` when the item is grabbed or
dragged, the drop transition's events, and `feedback.closed` with
`manually = false` when the popup is auto-dismissed. -/
def pickUpDropTrace (cfg : Config) (threshold : Nat) (itemId : Nat) (zoneUid : String) :
    Except String (List Event) :=
  match dropOutcome cfg threshold (initState cfg) itemId zoneUid with
  | .ok (_, popup, dropEvents) =>
      .ok ([Event.loaded] ++ [Event.item_picked_up itemId] ++ dropEvents
        ++ [Event.feedback_closed popup.content popup.truncated false])
  | .error e => .error e
end Engine

/-! Basic facts about the dict operations. -/

theorem dget?_dset_self (d : Dict) (k : String) (v : PyVal) :
    dget? (dset d k v) k = some v := by
  induction d with
  | nil => simp [dset, dget?]
  | cons hd tl ih =>
      obtain ⟨a, w⟩ := hd
      by_cases h : a = k
      · simp [dset, dget?, h]
      · simp [dset, dget?, h, ih]

theorem dget?_dset_ne (d : Dict) {k key : String} (v : PyVal) (h : key ≠ k) :
    dget? (dset d k v) key = dget? d key := by
  induction d with
  | nil => simp [dset, dget?, Ne.symm h]
  | cons hd tl ih =>
      obtain ⟨a, w⟩ := hd
      by_cases ha : a = k
      · subst ha
        simp [dset, dget?, Ne.symm h]
      · by_cases hk : a = key
        · simp [dset, dget?, ha, hk, h]
        · simp [dset, dget?, ha, hk, ih]

theorem dget?_dpop_self (d : Dict) (k : String) : dget? (dpop d k) k = none := by
  induction d with
  | nil => simp [dpop, dget?]
  | cons hd tl ih =>
      obtain ⟨a, w⟩ := hd
      by_cases h : a = k
      · simp [dpop, h, ih]
      · simp [dpop, dget?, h, ih]

theorem dget?_dpop_ne (d : Dict) {k key : String} (h : key ≠ k) :
    dget? (dpop d k) key = dget? d key := by
  induction d with
  | nil => simp [dpop]
  | cons hd tl ih =>
      obtain ⟨a, w⟩ := hd
      by_cases ha : a = k
      · subst ha
        simp [dpop, dget?, Ne.symm h, ih]
      · by_cases hk : a = key
        · simp [dpop, dget?, ha, hk, h]
        · simp [dpop, dget?, ha, hk, ih]

theorem dpop_of_not_contains (d : Dict) (k : String) (h : dcontains d k = false) :
    dpop d k = d := by
  induction d with
  | nil => simp [dpop]
  | cons hd tl ih =>
      obtain ⟨a, w⟩ := hd
      by_cases ha : a = k
      · subst ha
        simp [dcontains, dget?] at h
      · have h2 : dcontains tl k = false := by
          simp only [dcontains, dget?] at h
          rwa [if_neg ha] at h
        simp [dpop, ha, ih h2]

theorem dcontains_eq_false_iff (d : Dict) (k : String) :
    dcontains d k = false ↔ dget? d k = none := by
  simp [dcontains, Option.isSome_iff_exists]

namespace StateMigration

/-! Facts about the zone migration pipeline. -/

theorem apply_zone_migrations_eq (z : Dict) :
    apply_zone_migrations z = zone_v2_to_v2p1 (zone_v1_to_v2 z) := rfl

theorem dget?_zone_v1_to_v2_uid (z : Dict) :
    dget? (zone_v1_to_v2 z) "uid"
      = if dcontains z "uid" = false then some (dgetD z "title" .vNone)
        else dget? z "uid" := by
  unfold zone_v1_to_v2
  by_cases h : dcontains z "uid" = false
  · rw [if_pos h, if_pos h,
        dget?_dpop_ne _ (by decide), dget?_dpop_ne _ (by decide), dget?_dset_self]
  · rw [if_neg h, if_neg h,
        dget?_dpop_ne _ (by decide), dget?_dpop_ne _ (by decide)]

theorem dcontains_zone_v1_to_v2_uid (z : Dict) :
    dcontains (zone_v1_to_v2 z) "uid" = true := by
  rw [dcontains, dget?_zone_v1_to_v2_uid]
  by_cases h : dcontains z "uid" = false
  · rw [if_pos h]
    rfl
  · rw [if_neg h]
    rw [Bool.not_eq_false] at h
    rw [dcontains] at h
    exact h

theorem dcontains_zone_v1_to_v2_id (z : Dict) :
    dcontains (zone_v1_to_v2 z) "id" = false := by
  rw [dcontains_eq_false_iff]
  unfold zone_v1_to_v2
  rw [dget?_dpop_ne _ (by decide), dget?_dpop_self]

theorem dcontains_zone_v1_to_v2_index (z : Dict) :
    dcontains (zone_v1_to_v2 z) "index" = false := by
  rw [dcontains_eq_false_iff]
  unfold zone_v1_to_v2
  rw [dget?_dpop_self]

theorem dget?_zone_v1_to_v2_other (z : Dict) {key : String}
    (h1 : key ≠ "uid") (h2 : key ≠ "id") (h3 : key ≠ "index") :
    dget? (zone_v1_to_v2 z) key = dget? z key := by
  unfold zone_v1_to_v2
  rw [dget?_dpop_ne _ h3, dget?_dpop_ne _ h2]
  by_cases h : dcontains z "uid" = false
  · rw [if_pos h, dget?_dset_ne _ _ h1]
  · rw [if_neg h]

theorem dget?_zone_v2_to_v2p1_ne (z : Dict) {key : String} (h : key ≠ "align") :
    dget? (zone_v2_to_v2p1 z) key = dget? z key := by
  unfold zone_v2_to_v2p1
  by_cases c : alignAllowed (dgetD z "align" .vNone) = false
  · rw [if_pos c, dget?_dset_ne _ _ h]
  · rw [if_neg c]

theorem dgetD_zone_v2_to_v2p1_align (z : Dict) :
    dgetD (zone_v2_to_v2p1 z) "align" .vNone
      = if alignAllowed (dgetD z "align" .vNone) = true then dgetD z "align" .vNone
        else .vStr "center" := by
  unfold zone_v2_to_v2p1
  by_cases c : alignAllowed (dgetD z "align" .vNone) = false
  · rw [if_pos c, if_neg (by simp [c]), dgetD, dget?_dset_self]
    rfl
  · rw [Bool.not_eq_false] at c
    rw [if_neg (by simp [c]), if_pos c]

theorem align_allowed_after_v2p1 (z : Dict) :
    alignAllowed (dgetD (zone_v2_to_v2p1 z) "align" .vNone) = true := by
  rw [dgetD_zone_v2_to_v2p1_align]
  by_cases c : alignAllowed (dgetD z "align" .vNone) = true
  · rw [if_pos c]
    exact c
  · rw [if_neg c]
    rfl

theorem zone_v1_to_v2_fixed (z : Dict)
    (huid : dcontains z "uid" = true)
    (hid : dcontains z "id" = false)
    (hidx : dcontains z "index" = false) :
    zone_v1_to_v2 z = z := by
  unfold zone_v1_to_v2
  rw [if_neg (by simp [huid])]
  show dpop (dpop z "id") "index" = z
  rw [dpop_of_not_contains z "id" hid, dpop_of_not_contains z "index" hidx]

theorem zone_v2_to_v2p1_fixed (z : Dict)
    (hal : alignAllowed (dgetD z "align" .vNone) = true) :
    zone_v2_to_v2p1 z = z := by
  unfold zone_v2_to_v2p1
  rw [if_neg (by simp [hal])]

theorem dcontains_zone_v2_to_v2p1_ne (z : Dict) {key : String} (h : key ≠ "align") :
    dcontains (zone_v2_to_v2p1 z) key = dcontains z key := by
  unfold dcontains
  rw [dget?_zone_v2_to_v2p1_ne _ h]

end StateMigration

theorem heapRead_append_self (h : Heap) (v : PyVal) :
    heapRead (h ++ [v]) h.length = v := by
  induction h with
  | nil => rfl
  | cons hd tl ih => simp [heapRead, List.getD]

theorem heapRead_append_lt (h : Heap) (t : List PyVal) (a : Addr) (ha : a < h.length) :
    heapRead (h ++ t) a = heapRead h a := by
  induction h generalizing a with
  | nil => exact absurd ha (by simp)
  | cons hd tl ih =>
      cases a with
      | zero => rfl
      | succ n =>
          have hn : n < tl.length := by simpa using ha
          simpa [heapRead, List.getD] using ih n hn

theorem heapWrite_append_self (h : Heap) (x v : PyVal) :
    heapWrite (h ++ [x]) h.length v = h ++ [v] := by
  induction h with
  | nil => rfl
  | cons hd tl ih => simp [heapWrite, List.set]

theorem zoneStepH_append (h : Heap) (x : Dict) (f : Dict → Dict) :
    zoneStepH f (h ++ [PyVal.vDict x]) h.length
      = .ok (h ++ [PyVal.vDict (f x)], h.length) := by
  simp [zoneStepH, heapRead_append_self, heapWrite_append_self]

theorem zoneStepH_append_list (h : Heap) (l : List PyVal) (f : Dict → Dict) :
    zoneStepH f (h ++ [PyVal.vList l]) h.length = .error "TypeError" := by
  simp [zoneStepH, heapRead_append_self]

theorem itemStep1H_append_dict (h : Heap) (x : Dict) :
    itemStep1H (h ++ [PyVal.vDict x]) h.length
      = .ok (h ++ [PyVal.vDict x], h.length) := by
  simp [itemStep1H, heapRead_append_self]

theorem itemStep1H_append_list (h : Heap) (l : List PyVal) :
    itemStep1H (h ++ [PyVal.vList l]) h.length
      = match StateMigration.item_state_v1_to_v1p5 (PyVal.vList l) with
        | .ok w => .ok (h ++ [PyVal.vList l, w], h.length + 1)
        | .error e => .error e := by
  cases cw : StateMigration.item_state_v1_to_v1p5 (PyVal.vList l) with
  | ok w => simp [itemStep1H, heapRead_append_self, cw, heapAlloc]
  | error e => simp [itemStep1H, heapRead_append_self, cw]

theorem heap_apply_zone_migrations_extends (h : Heap) (a : Addr)
    (hz : Heap) (rz : Addr)
    (ez : heap_apply_zone_migrations h a = .ok (hz, rz)) :
    ∃ t, hz = h ++ t := by
  unfold heap_apply_zone_migrations heapCopy at ez
  cases c : heapRead h a with
  | vDict d =>
      rw [c] at ez
      simp only [StateMigration.pyCopy, heapAlloc, zoneStepH_append,
        Except.ok.injEq, Prod.mk.injEq] at ez
      exact ⟨_, ez.1.symm⟩
  | vList l =>
      rw [c] at ez
      simp only [StateMigration.pyCopy, heapAlloc, zoneStepH_append_list] at ez
      exact Except.noConfusion ez
  | vStr s => rw [c] at ez; exact Except.noConfusion ez
  | vInt n => rw [c] at ez; exact Except.noConfusion ez
  | vBool b => rw [c] at ez; exact Except.noConfusion ez
  | vNone => rw [c] at ez; exact Except.noConfusion ez

theorem heap_apply_item_state_migrations_extends (h : Heap) (a : Addr)
    (hi : Heap) (ri : Addr)
    (ei : heap_apply_item_state_migrations h a = .ok (hi, ri)) :
    ∃ t, hi = h ++ t := by
  unfold heap_apply_item_state_migrations heapCopy at ei
  cases c : heapRead h a with
  | vDict d =>
      rw [c] at ei
      simp only [StateMigration.pyCopy, heapAlloc, itemStep1H_append_dict,
        itemStep2H, itemStep3H, Except.ok.injEq, Prod.mk.injEq] at ei
      exact ⟨_, ei.1.symm⟩
  | vList l =>
      rw [c] at ei
      simp only [StateMigration.pyCopy, heapAlloc, itemStep1H_append_list] at ei
      cases cw : StateMigration.item_state_v1_to_v1p5 (PyVal.vList l) with
      | ok w =>
          rw [cw] at ei
          simp only [itemStep2H, itemStep3H, Except.ok.injEq, Prod.mk.injEq] at ei
          exact ⟨_, ei.1.symm⟩
      | error e =>
          rw [cw] at ei
          exact Except.noConfusion ei
  | vStr s => rw [c] at ei; exact Except.noConfusion ei
  | vInt n => rw [c] at ei; exact Except.noConfusion ei
  | vBool b => rw [c] at ei; exact Except.noConfusion ei
  | vNone => rw [c] at ei; exact Except.noConfusion ei

namespace FeedbackMessages

theorem render_correctly_placed_singular :
    CORRECTLY_PLACED_SINGULAR.render = "Correctly placed {correct_count} item." := rfl

theorem render_correctly_placed_plural :
    CORRECTLY_PLACED_PLURAL.render = "Correctly placed {correct_count} items." := rfl

theorem render_misplaced_singular :
    MISPLACED_SINGULAR.render
      = "Misplaced {misplaced_count} item. Misplaced item was returned to item bank." := rfl

theorem render_misplaced_plural :
    MISPLACED_PLURAL.render
      = "Misplaced {misplaced_count} items. Misplaced items were returned to item bank." := rfl

theorem render_not_placed_singular :
    NOT_PLACED_SINGULAR.render = "Did not place {missing_count} required item." := rfl

theorem render_not_placed_plural :
    NOT_PLACED_PLURAL.render = "Did not place {missing_count} required items." := rfl

end FeedbackMessages

namespace Engine

theorem getItemZone_setItemZone_self (st : PlacementState) (i : Nat) (z : Option String) :
    getItemZone (setItemZone st i z) i = z := by
  induction st with
  | nil => simp [setItemZone, getItemZone]
  | cons hd tl ih =>
      obtain ⟨j, w⟩ := hd
      by_cases h : j = i
      · simp [setItemZone, getItemZone, h]
      · simp [setItemZone, getItemZone, h, ih]

end Engine

/-! The claims. -/

namespace StateMigration

/-- Claim C1 (bug evidence): on a dict-shaped item state carrying the
legacy keys, `apply_item_state_migrations` returns the record
unchanged, the legacy keys `x_percent`, `y_percent`, `top`, `left`
and `absolute` all still present in the output: the `del [attribute]`
loop in `_item_state_v2_to_v2p1` only unbinds its loop variable and
never removes a key, contradicting the function's own docstring and
the spec sentence that the fields are stripped. -/
theorem item_state_migration_keeps_legacy_fields :
    apply_item_state_migrations
        (.vDict [("zone", .vStr "Zone 1"), ("correct", .vBool true),
          ("x_percent", .vStr "90%"), ("y_percent", .vStr "20%"),
          ("top", .vStr "100px"), ("left", .vStr "120px"), ("absolute", .vBool true)])
      = .ok (.vDict [("zone", .vStr "Zone 1"), ("correct", .vBool true),
          ("x_percent", .vStr "90%"), ("y_percent", .vStr "20%"),
          ("top", .vStr "100px"), ("left", .vStr "120px"), ("absolute", .vBool true)])
    ∧ dcontains [("zone", .vStr "Zone 1"), ("correct", .vBool true),
          ("x_percent", .vStr "90%"), ("y_percent", .vStr "20%"),
          ("top", .vStr "100px"), ("left", .vStr "120px"), ("absolute", .vBool true)]
        "x_percent" = true
    ∧ dcontains [("zone", .vStr "Zone 1"), ("correct", .vBool true),
          ("x_percent", .vStr "90%"), ("y_percent", .vStr "20%"),
          ("top", .vStr "100px"), ("left", .vStr "120px"), ("absolute", .vBool true)]
        "top" = true
    ∧ dcontains [("zone", .vStr "Zone 1"), ("correct", .vBool true),
          ("x_percent", .vStr "90%"), ("y_percent", .vStr "20%"),
          ("top", .vStr "100px"), ("left", .vStr "120px"), ("absolute", .vBool true)]
        "absolute" = true :=
  ⟨rfl, rfl, rfl, rfl⟩

/-- Claim C4: a legacy zone record without a `uid` key migrates to a
record whose `uid` is the value of `title`, without `id` and `index`
keys, and whose `align` is replaced by `center` whenever the incoming
value is outside the allowed alignments (a legacy `none` string, a
missing key, or any other value); in particular the legacy zone
`{id: 1, index: 2, title: "Zone", align: "none"}` migrates to a record
with `uid = "Zone"`, `align = "center"` and no `id`/`index`. -/
theorem zone_migration_legacy_zone (z : Dict) (huid : dcontains z "uid" = false) :
    dget? (apply_zone_migrations z) "uid" = some (dgetD z "title" .vNone)
    ∧ dcontains (apply_zone_migrations z) "id" = false
    ∧ dcontains (apply_zone_migrations z) "index" = false
    ∧ dgetD (apply_zone_migrations z) "align" .vNone
        = (if alignAllowed (dgetD z "align" .vNone) = true then dgetD z "align" .vNone
           else .vStr "center")
    ∧ apply_zone_migrations
        [("id", .vInt 1), ("index", .vInt 2), ("title", .vStr "Zone"), ("align", .vStr "none")]
      = [("title", .vStr "Zone"), ("align", .vStr "center"), ("uid", .vStr "Zone")] := by
  refine ⟨?_, ?_, ?_, ?_, rfl⟩
  · rw [apply_zone_migrations_eq, dget?_zone_v2_to_v2p1_ne _ (by decide),
        dget?_zone_v1_to_v2_uid, if_pos huid]
  · rw [apply_zone_migrations_eq, dcontains_zone_v2_to_v2p1_ne _ (by decide)]
    exact dcontains_zone_v1_to_v2_id z
  · rw [apply_zone_migrations_eq, dcontains_zone_v2_to_v2p1_ne _ (by decide)]
    exact dcontains_zone_v1_to_v2_index z
  · rw [apply_zone_migrations_eq, dgetD_zone_v2_to_v2p1_align]
    have halign : dgetD (zone_v1_to_v2 z) "align" .vNone = dgetD z "align" .vNone := by
      unfold dgetD
      rw [dget?_zone_v1_to_v2_other z (by decide) (by decide) (by decide)]
    rw [halign]

/-- Witness for C4 at the legacy zone from the spec scenario. -/
theorem zone_migration_legacy_zone_witness :
    dcontains [("id", PyVal.vInt 1), ("index", PyVal.vInt 2), ("title", PyVal.vStr "Zone"),
        ("align", PyVal.vStr "none")] "uid" = false
    ∧ dget? (apply_zone_migrations
        [("id", PyVal.vInt 1), ("index", PyVal.vInt 2), ("title", PyVal.vStr "Zone"),
          ("align", PyVal.vStr "none")]) "uid"
      = some (dgetD [("id", PyVal.vInt 1), ("index", PyVal.vInt 2), ("title", PyVal.vStr "Zone"),
          ("align", PyVal.vStr "none")] "title" .vNone) :=
  ⟨rfl,
    (zone_migration_legacy_zone
      [("id", PyVal.vInt 1), ("index", PyVal.vInt 2), ("title", PyVal.vStr "Zone"),
        ("align", PyVal.vStr "none")] rfl).1⟩

/-- Claim C5: the zone migration pipeline is idempotent: applying
`apply_zone_migrations` to its own output yields an equal record. -/
theorem apply_zone_migrations_idempotent (z : Dict) :
    apply_zone_migrations (apply_zone_migrations z) = apply_zone_migrations z := by
  rw [apply_zone_migrations_eq, apply_zone_migrations_eq,
    zone_v1_to_v2_fixed _
      (by rw [dcontains_zone_v2_to_v2p1_ne _ (by decide)]
          exact dcontains_zone_v1_to_v2_uid z)
      (by rw [dcontains_zone_v2_to_v2p1_ne _ (by decide)]
          exact dcontains_zone_v1_to_v2_id z)
      (by rw [dcontains_zone_v2_to_v2p1_ne _ (by decide)]
          exact dcontains_zone_v1_to_v2_index z),
    zone_v2_to_v2p1_fixed _ (align_allowed_after_v2p1 _)]

/-- Claim C6: the item-state migration pipeline is idempotent: when a
record migrates successfully, migrating the output again returns the
same output. -/
theorem apply_item_state_migrations_idempotent (s r : PyVal)
    (h : apply_item_state_migrations s = .ok r) :
    apply_item_state_migrations r = .ok r := by
  cases s with
  | vDict d =>
      have e : apply_item_state_migrations (.vDict d) = .ok (.vDict d) := rfl
      rw [e] at h
      injection h with h2
      subst h2
      rfl
  | vList l =>
      rcases l with _ | ⟨a, _ | ⟨b, rest⟩⟩
      · have e : apply_item_state_migrations (.vList []) = .error "IndexError" := rfl
        rw [e] at h
        exact Except.noConfusion h
      · have e : apply_item_state_migrations (.vList [a]) = .error "IndexError" := rfl
        rw [e] at h
        exact Except.noConfusion h
      · have e : apply_item_state_migrations (.vList (a :: b :: rest))
            = .ok (.vDict [("top", a), ("left", b)]) := rfl
        rw [e] at h
        injection h with h2
        subst h2
        rfl
  | vStr s0 =>
      have e : apply_item_state_migrations (.vStr s0)
          = .error "AttributeError: object has no attribute copy" := rfl
      rw [e] at h
      exact Except.noConfusion h
  | vInt n =>
      have e : apply_item_state_migrations (.vInt n)
          = .error "AttributeError: object has no attribute copy" := rfl
      rw [e] at h
      exact Except.noConfusion h
  | vBool b =>
      have e : apply_item_state_migrations (.vBool b)
          = .error "AttributeError: object has no attribute copy" := rfl
      rw [e] at h
      exact Except.noConfusion h
  | vNone =>
      have e : apply_item_state_migrations PyVal.vNone
          = .error "AttributeError: object has no attribute copy" := rfl
      rw [e] at h
      exact Except.noConfusion h

/-- Witness for C6: a legacy pair migrates to a record, and migrating
that record again returns it unchanged. -/
theorem apply_item_state_migrations_idempotent_witness :
    apply_item_state_migrations (.vList [.vStr "100px", .vStr "120px"])
      = .ok (.vDict [("top", PyVal.vStr "100px"), ("left", PyVal.vStr "120px")])
    ∧ apply_item_state_migrations (.vDict [("top", PyVal.vStr "100px"),
        ("left", PyVal.vStr "120px")])
      = .ok (.vDict [("top", PyVal.vStr "100px"), ("left", PyVal.vStr "120px")]) :=
  ⟨rfl, apply_item_state_migrations_idempotent (.vList [.vStr "100px", .vStr "120px"]) _ rfl⟩

/-- Claim C7: a legacy v1 item state given as a two-element positional
pair migrates without error to the record `{top, left}` holding the
pair's elements, and an input that is already a record passes through
the v1-to-v1.5 step unchanged. -/
theorem item_state_pair_migration (a b : PyVal) (d : Dict) :
    apply_item_state_migrations (.vList [a, b]) = .ok (.vDict [("top", a), ("left", b)])
    ∧ item_state_v1_to_v1p5 (.vDict d) = .ok (.vDict d) :=
  ⟨rfl, rfl⟩

/-- Claim C10: the item-state migration pipeline is the identity on
every dict-shaped input: no key is added and no key is removed, the
legacy keys `x_percent`, `y_percent`, `top`, `left`, `absolute`
included (consequence of the no-op `del [attribute]` loop in
`_item_state_v2_to_v2p1`). -/
theorem apply_item_state_migrations_identity_on_dict (d : Dict) :
    apply_item_state_migrations (.vDict d) = .ok (.vDict d) := rfl

end StateMigration

/-- Claim C8: the migration pipelines never mutate the caller's
record: in the heap semantics, running either pipeline on the cell at
address `a` leaves the heap cell at `a` unchanged, because the
pipeline works on a freshly allocated copy. -/
theorem migration_pipelines_preserve_caller (h : Heap) (a : Addr) (ha : a < h.length)
    (hz hi : Heap) (rz ri : Addr)
    (ez : heap_apply_zone_migrations h a = .ok (hz, rz))
    (ei : heap_apply_item_state_migrations h a = .ok (hi, ri)) :
    heapRead hz a = heapRead h a ∧ heapRead hi a = heapRead h a := by
  obtain ⟨t1, e1⟩ := heap_apply_zone_migrations_extends h a hz rz ez
  obtain ⟨t2, e2⟩ := heap_apply_item_state_migrations_extends h a hi ri ei
  subst e1
  subst e2
  exact ⟨heapRead_append_lt h t1 a ha, heapRead_append_lt h t2 a ha⟩

/-- Witness for C8 on a one-cell heap holding a zone-shaped dict. -/
theorem migration_pipelines_preserve_caller_witness :
    heapRead [PyVal.vDict [("title", PyVal.vStr "Z")],
        PyVal.vDict [("title", PyVal.vStr "Z"), ("uid", PyVal.vStr "Z"),
          ("align", PyVal.vStr "center")]] 0
      = heapRead [PyVal.vDict [("title", PyVal.vStr "Z")]] 0
    ∧ heapRead [PyVal.vDict [("title", PyVal.vStr "Z")],
        PyVal.vDict [("title", PyVal.vStr "Z")]] 0
      = heapRead [PyVal.vDict [("title", PyVal.vStr "Z")]] 0 :=
  migration_pipelines_preserve_caller
    [PyVal.vDict [("title", PyVal.vStr "Z")]] 0 (by decide)
    [PyVal.vDict [("title", PyVal.vStr "Z")],
      PyVal.vDict [("title", PyVal.vStr "Z"), ("uid", PyVal.vStr "Z"),
        ("align", PyVal.vStr "center")]]
    [PyVal.vDict [("title", PyVal.vStr "Z")], PyVal.vDict [("title", PyVal.vStr "Z")]]
    1 1 rfl rfl

/-- Claim C9: each feedback message builder selects the singular
format string exactly when the count is 1 and the plural one for every
other count, and substitutes the count into the chosen format string;
the builders are pure functions of the count by construction. -/
theorem feedback_builders_select_by_count (n : Int) :
    FeedbackMessages.correctly_placed n
      = (if n = 1 then FeedbackMessages.CORRECTLY_PLACED_SINGULAR
         else FeedbackMessages.CORRECTLY_PLACED_PLURAL).format (toString n)
    ∧ FeedbackMessages.misplaced n
      = (if n = 1 then FeedbackMessages.MISPLACED_SINGULAR
         else FeedbackMessages.MISPLACED_PLURAL).format (toString n)
    ∧ FeedbackMessages.not_placed n
      = (if n = 1 then FeedbackMessages.NOT_PLACED_SINGULAR
         else FeedbackMessages.NOT_PLACED_PLURAL).format (toString n)
    ∧ FeedbackMessages.correctly_placed 1 = "Correctly placed 1 item."
    ∧ FeedbackMessages.correctly_placed 2 = "Correctly placed 2 items."
    ∧ FeedbackMessages.misplaced 1
      = "Misplaced 1 item. Misplaced item was returned to item bank."
    ∧ FeedbackMessages.misplaced 0
      = "Misplaced 0 items. Misplaced items were returned to item bank."
    ∧ FeedbackMessages.not_placed 1 = "Did not place 1 required item."
    ∧ FeedbackMessages.not_placed 3 = "Did not place 3 required items." :=
  ⟨rfl, rfl, rfl, rfl, rfl, rfl, rfl, rfl, rfl⟩

namespace Engine

/-- Claim C2: a `placeItem` command targeting a zone with finite
capacity `m` while `m` items (the moving item excluded) already
occupy it is rejected with `CapacityExceeded`, the moving item's
state becomes `InBank` (zone id `none`), and the outcome of the
pointer-drag controller and the keyboard controller is identical. -/
theorem capacity_exceeded_rejects_identically
    (cfg : Config) (st : PlacementState) (itemId : Nat) (zoneUid : String)
    (item : Item) (zone : Zone) (m : Nat)
    (hitem : findItem? cfg itemId = some item)
    (hzone : findZone? cfg zoneUid = some zone)
    (hcap : zone.maxItems = some m)
    (hocc : zoneOccupancy st itemId zoneUid = m) :
    pointerDrop cfg st itemId (some zoneUid)
      = .ok (setItemZone st itemId none,
          { accepted := false, isCorrect := false, zoneId := none,
            reasonIfRejected := some .CapacityExceeded })
    ∧ keyboardActivateDrop cfg st itemId (some zoneUid)
      = pointerDrop cfg st itemId (some zoneUid)
    ∧ getItemZone (setItemZone st itemId none) itemId = none := by
  have hp : placeItem cfg st itemId (some zoneUid)
      = .ok (setItemZone st itemId none,
          { accepted := false, isCorrect := false, zoneId := none,
            reasonIfRejected := some .CapacityExceeded }) := by
    unfold placeItem
    simp only [hitem, hzone, hcap, hocc]
    simp
  exact ⟨hp, rfl, getItemZone_setItemZone_self st itemId none⟩

/-- Witness for C2: zone `z1` has capacity 2 and already holds items
0 and 1; placing item 2 there is rejected identically through both
modalities and item 2 ends in the bank. -/
theorem capacity_exceeded_rejects_identically_witness :
    pointerDrop
        { zones := [{ uid := "z1", title := "Zone 1", maxItems := some 2 }],
          items := [{ id := 0, validZoneIds := ["z1"], feedback_positive := "Yes",
                      feedback_negative := "No" },
                    { id := 1, validZoneIds := ["z1"], feedback_positive := "Yes",
                      feedback_negative := "No" },
                    { id := 2, validZoneIds := ["z1"], feedback_positive := "Yes",
                      feedback_negative := "No" }] }
        [(0, some "z1"), (1, some "z1"), (2, none)] 2 (some "z1")
      = .ok (setItemZone [(0, some "z1"), (1, some "z1"), (2, none)] 2 none,
          { accepted := false, isCorrect := false, zoneId := none,
            reasonIfRejected := some .CapacityExceeded })
    ∧ keyboardActivateDrop
        { zones := [{ uid := "z1", title := "Zone 1", maxItems := some 2 }],
          items := [{ id := 0, validZoneIds := ["z1"], feedback_positive := "Yes",
                      feedback_negative := "No" },
                    { id := 1, validZoneIds := ["z1"], feedback_positive := "Yes",
                      feedback_negative := "No" },
                    { id := 2, validZoneIds := ["z1"], feedback_positive := "Yes",
                      feedback_negative := "No" }] }
        [(0, some "z1"), (1, some "z1"), (2, none)] 2 (some "z1")
      = pointerDrop
        { zones := [{ uid := "z1", title := "Zone 1", maxItems := some 2 }],
          items := [{ id := 0, validZoneIds := ["z1"], feedback_positive := "Yes",
                      feedback_negative := "No" },
                    { id := 1, validZoneIds := ["z1"], feedback_positive := "Yes",
                      feedback_negative := "No" },
                    { id := 2, validZoneIds := ["z1"], feedback_positive := "Yes",
                      feedback_negative := "No" }] }
        [(0, some "z1"), (1, some "z1"), (2, none)] 2 (some "z1")
    ∧ getItemZone (setItemZone [(0, some "z1"), (1, some "z1"), (2, none)] 2 none) 2 = none :=
  capacity_exceeded_rejects_identically _ _ 2 "z1" _ _ 2 rfl rfl rfl rfl

/-- Claim C3: for a single pick-up-then-drop-on-correct-zone
interaction on a freshly loaded engine, the published events are
exactly, in this order: `loaded`, `item.picked_up`, `grade` (the
computed score changed), `item.dropped` carrying `is_correct`,
`item_id`, `location` and `location_id`, `feedback.opened` carrying
the content and its `truncated` flag, and `feedback.closed` carrying
the `manually` flag. -/
theorem pick_up_drop_event_order
    (cfg : Config) (threshold : Nat) (itemId : Nat) (zoneUid : String)
    (item : Item) (zone : Zone)
    (hitem : findItem? cfg itemId = some item)
    (hzone : findZone? cfg zoneUid = some zone)
    (hcorrect : zoneUid ∈ item.validZoneIds)
    (hcap : ∀ m, zone.maxItems = some m → zoneOccupancy (initState cfg) itemId zoneUid < m)
    (hscore : score cfg (setItemZone (initState cfg) itemId (some zoneUid))
        ≠ score cfg (initState cfg)) :
    pickUpDropTrace cfg threshold itemId zoneUid
      = .ok [Event.loaded,
          Event.item_picked_up itemId,
          Event.grade (score cfg (setItemZone (initState cfg) itemId (some zoneUid))) 1,
          Event.item_dropped true itemId zone.title zone.uid,
          Event.feedback_opened item.feedback_positive
            (decide (threshold < item.feedback_positive.length)),
          Event.feedback_closed item.feedback_positive
            (decide (threshold < item.feedback_positive.length)) false] := by
  have hplace : placeItem cfg (initState cfg) itemId (some zoneUid)
      = .ok (setItemZone (initState cfg) itemId (some zoneUid),
          { accepted := true, isCorrect := true, zoneId := some zoneUid,
            reasonIfRejected := none }) := by
    unfold placeItem
    simp only [hitem, hzone]
    cases hm : zone.maxItems with
    | none => simp [hcorrect]
    | some m => simp [hcorrect, Nat.not_le.mpr (hcap m hm)]
  unfold pickUpDropTrace dropOutcome
  simp only [hplace, hitem, hzone, if_neg hscore]
  rfl

/-- Witness for C3: one item `0` whose only correct zone is `top`;
dropping it there on a fresh engine publishes exactly the six events
in the contractual order, with the grade value evaluated to 1. -/
theorem pick_up_drop_event_order_witness :
    pickUpDropTrace
        { zones := [{ uid := "top", title := "The Top Zone", maxItems := none }],
          items := [{ id := 0, validZoneIds := ["top"], feedback_positive := "Yes",
                      feedback_negative := "No" }] }
        300 0 "top"
      = .ok [Event.loaded,
          Event.item_picked_up 0,
          Event.grade 1 1,
          Event.item_dropped true 0 "The Top Zone" "top",
          Event.feedback_opened "Yes" false,
          Event.feedback_closed "Yes" false false] := by
  have h1 : score
      { zones := [{ uid := "top", title := "The Top Zone", maxItems := none }],
        items := [{ id := 0, validZoneIds := ["top"], feedback_positive := "Yes",
                    feedback_negative := "No" }] }
      (setItemZone (initState
        { zones := [{ uid := "top", title := "The Top Zone", maxItems := none }],
          items := [{ id := 0, validZoneIds := ["top"], feedback_positive := "Yes",
                      feedback_negative := "No" }] }) 0 (some "top"))
      = 1 := by
    norm_num [score, requiredCount, correctlyPlacedCount, isCorrectlyPlaced, initState,
      setItemZone, getItemZone, List.filter]
  have h0 : score
      { zones := [{ uid := "top", title := "The Top Zone", maxItems := none }],
        items := [{ id := 0, validZoneIds := ["top"], feedback_positive := "Yes",
                    feedback_negative := "No" }] }
      (initState
        { zones := [{ uid := "top", title := "The Top Zone", maxItems := none }],
          items := [{ id := 0, validZoneIds := ["top"], feedback_positive := "Yes",
                      feedback_negative := "No" }] })
      = 0 := by
    norm_num [score, requiredCount, correctlyPlacedCount, isCorrectlyPlaced, initState,
      setItemZone, getItemZone, List.filter]
  have ht := pick_up_drop_event_order
    { zones := [{ uid := "top", title := "The Top Zone", maxItems := none }],
      items := [{ id := 0, validZoneIds := ["top"], feedback_positive := "Yes",
                  feedback_negative := "No" }] }
    300 0 "top"
    { id := 0, validZoneIds := ["top"], feedback_positive := "Yes",
      feedback_negative := "No" }
    { uid := "top", title := "The Top Zone", maxItems := none }
    rfl rfl (by decide) (fun m hm => Option.noConfusion hm)
    (by rw [h1, h0]; norm_num)
  rw [h1] at ht
  exact ht

end Engine

end DragAndDropV2
